import Mathlib

/-
Verification development for the TimeDateWeather configuration core
(src/config_manager.py, src/themes.py, and the preview/commit controller in
src/settings_window.py), shallowly embedded in Lean 4.

Modelling conventions:
* JSON values parsed by json.load are `JValue`; Python dicts are
  insertion-ordered association lists (`Entries`), matching CPython dict
  semantics (assignment replaces in place, new keys append at the end).
* Machine state is passed explicitly; the backing file is a `FileContent`.
* Fallible Python code paths are modelled with `Option`/result flags:
  `none` models an uncaught Python exception escaping the operation
  (the post-crash partially-mutated state is not tracked, since no claim
  observes it), while caught exceptions are modelled by the boolean results
  the source returns.
* `_deep_copy` returns a structurally equal fresh object; in a pure-value
  embedding copying is the identity, so deep copies appear as the value
  itself.  Where Python aliasing could later diverge from value semantics
  (an in-memory root entry aliased to the working copy by a prior `save`),
  the claims below only observe the working copy, the instance key set,
  or the on-disk state, for which value semantics agree with the source.
-/

namespace TDW

/-- A parsed JSON value (the result of Python's json.load).  Objects keep
their key insertion order, mirroring Python dicts. -/
inductive JValue where
  | null : JValue
  | str : String → JValue
  | bool : Bool → JValue
  | num : Rat → JValue
  | list : List JValue → JValue
  | obj : List (String × JValue) → JValue
deriving Repr

/-- The entry list of a Python dict with String keys. -/
abbrev Entries := List (String × JValue)

/-- Python `d.get(key)` / `d[key]` lookup: first entry with the key. -/
def lookupD : Entries → String → Option JValue
  | [], _ => none
  | (k, v) :: rest, key => if k = key then some v else lookupD rest key

/-- Python `key in d`. -/
def hasKey (d : Entries) (k : String) : Bool :=
  (lookupD d k).isSome

/-- Python `d[key] = v`: replace in place if the key is present, else append. -/
def setk : Entries → String → JValue → Entries
  | [], key, v => [(key, v)]
  | (k, w) :: rest, key, v =>
      if k = key then (k, v) :: rest else (k, w) :: setk rest key v

/-- Python `d.update(other)`: assign each of `other`'s entries in order. -/
def updateD (d other : Entries) : Entries :=
  other.foldl (fun acc kv => setk acc kv.1 kv.2) d

/-- Python `del d[key]`: drop the (first) entry with the key. -/
def eraseD : Entries → String → Entries
  | [], _ => []
  | (k, v) :: rest, key => if k = key then rest else (k, v) :: eraseD rest key

/-- Python `list(d.keys())`. -/
def keysD (d : Entries) : List String :=
  d.map Prod.fst

/-- Whether a JSON value is a mapping (Python `isinstance(v, dict)`). -/
def isObj : JValue → Bool
  | JValue.obj _ => true
  | _ => false

/-- Python truthiness of a JSON value (used by `a or b`). -/
def truthy : JValue → Bool
  | JValue.null => false
  | JValue.str s => !s.isEmpty
  | JValue.bool b => b
  | JValue.num q => decide (q ≠ 0)
  | JValue.list xs => !xs.isEmpty
  | JValue.obj kvs => !kvs.isEmpty

/-- Key lookup inside a JSON value, `none` when it is not a mapping. -/
def jget (v : JValue) (k : String) : Option JValue :=
  match v with
  | JValue.obj kvs => lookupD kvs k
  | _ => none

/-- Lookup along a path of keys, for stating facts about nested documents. -/
def getPath (v : JValue) : List String → Option JValue
  | [] => some v
  | k :: rest =>
      match jget v k with
      | some w => getPath w rest
      | none => none

/-- DEFAULT_INSTANCE_CONFIG from src/config_manager.py. -/
def DEFAULT_INSTANCE_CONFIG : Entries :=
  [("location", JValue.obj
      [("zip_code", JValue.str "80701"),
       ("country", JValue.str "US")]),
   ("weather", JValue.obj
      [("show_attribution", JValue.bool true),
       ("display_format", JValue.str "standard"),
       ("format_strings", JValue.obj
          [("standard", JValue.str "%C+%t+%w"),
           ("simple", JValue.str "%C+%t"),
           ("detailed", JValue.str "%C+%t+|+%w+|+%h"),
           ("minimal", JValue.str "%t")]),
       ("show_emoji", JValue.bool true),
       ("show_forecast", JValue.bool false),
       ("forecast_days", JValue.num 1)]),
   ("fonts", JValue.obj
      [("family", JValue.str "Bahnschrift"),
       ("time_size", JValue.num 48),
       ("date_size", JValue.num 16),
       ("weather_size", JValue.num 16),
       ("status_size", JValue.num 11)]),
   ("colors", JValue.obj
      [("text", JValue.str "#f5f2ea"),
       ("status", JValue.str "#8a8a8a"),
       ("shadow", JValue.str "#121212"),
       ("lock_colors", JValue.bool true),
       ("time_color", JValue.str "#fefcf7"),
       ("date_color", JValue.str "#d8d2c6"),
       ("weather_color", JValue.str "#c7d3e8")]),
   ("appearance", JValue.obj
      [("opacity", JValue.num 1),
       ("scale", JValue.num 1),
       ("shadow_offset_x", JValue.num 2),
       ("shadow_offset_y", JValue.num 2),
       ("theme", JValue.str "default")]),
   ("display", JValue.obj
      [("use_24h_format", JValue.bool false),
       ("show_seconds", JValue.bool false),
       ("launch_at_boot", JValue.bool false),
       ("hourly_chime", JValue.bool false),
       ("weather_refresh_chime", JValue.bool false),
       ("click_through_locked", JValue.bool false),
       ("date_format", JValue.str "%A, %B %d"),
       ("snap_to_edges", JValue.bool true),
       ("snap_distance", JValue.num 15)]),
   ("spacing", JValue.obj
      [("status_x", JValue.num 0),
       ("status_y", JValue.num 0),
       ("time_x", JValue.num 0),
       ("time_y", JValue.num 18),
       ("date_x", JValue.num 0),
       ("date_y", JValue.num 75),
       ("weather_x", JValue.num 0),
       ("weather_y", JValue.num 100)]),
   ("position", JValue.obj
      [("x", JValue.num 50),
       ("y", JValue.num 50)]),
   ("updates", JValue.obj
      [("time_interval", JValue.num 1000),
       ("weather_interval", JValue.num 1800000)]),
   ("ui", JValue.obj
      [("settings_border_color", JValue.str "#ffff00"),
       ("new_instance_color", JValue.str "#00ff00"),
       ("new_instance_color_dim", JValue.str "#00aa00")])]

/-- DEFAULT_ROOT_CONFIG from src/config_manager.py. -/
def DEFAULT_ROOT_CONFIG : Entries :=
  [("active_instances", JValue.list [JValue.str "instance_1"]),
   ("instances", JValue.obj
      [("instance_1", JValue.obj DEFAULT_INSTANCE_CONFIG)])]

/-- One iteration of the loop in `_merge_with_defaults`: process the loaded
entry `(c, v)` against the accumulated `merged` dict.  `none` models the
uncaught AttributeError raised by `merged[c].update(v)` when `merged[c]`
holds a non-mapping while `v` is a mapping. -/
def mergeStep (merged : Entries) (c : String) (v : JValue) : Option Entries :=
  match v with
  | JValue.obj lv =>
      match lookupD merged c with
      | some (JValue.obj mv) => some (setk merged c (JValue.obj (updateD mv lv)))
      | some _ => none
      | none => some (setk merged c (JValue.obj lv))
  | w => some (setk merged c w)

/-- `_merge_with_defaults(loaded, defaults)` from src/config_manager.py:
start from a deep copy of `defaults` and fold the loaded entries in order. -/
def mergeWithDefaults (loaded defaults : Entries) : Option Entries :=
  match loaded with
  | [] => some defaults
  | (c, v) :: rest =>
      match mergeStep defaults c v with
      | some m => mergeWithDefaults rest m
      | none => none

/-- `_merge_with_defaults` applied to an arbitrary JSON value as the loaded
document; a non-mapping raises AttributeError at `loaded_config.items()`. -/
def mergeJ (loaded : JValue) (defaults : Entries) : Option Entries :=
  match loaded with
  | JValue.obj kvs => mergeWithDefaults kvs defaults
  | _ => none

/-- The contents of one on-disk file slot. `corrupt` stands for a file that
exists but fails to read or parse (IOError / json.JSONDecodeError). -/
inductive FileContent where
  | absent : FileContent
  | corrupt : FileContent
  | doc : JValue → FileContent
deriving Repr

/-- The mutable state of a ConfigManager: the session's instance id, the
in-memory root document, and the working copy of this instance's config. -/
structure CMState where
  instance_id : String
  root_config : Entries
  config : Entries
deriving Repr

/-- `ConfigManager.save`: sync the working copy into the root document under
the session's instance id, then write the root document to the file.  The
in-root assignment happens before the write, so on an I/O failure (modelled
by `ioOk = false`, the caught IOError) the root document is still updated
while the file is left as it was.  `none` models the uncaught KeyError or
TypeError when the root document has no mapping under "instances". -/
def saveCM (st : CMState) (fc : FileContent) (ioOk : Bool) :
    Option (CMState × FileContent × Bool) :=
  match lookupD st.root_config "instances" with
  | some (JValue.obj insts) =>
      let root := setk st.root_config "instances"
          (JValue.obj (setk insts st.instance_id (JValue.obj st.config)))
      if ioOk then
        some ({ st with root_config := root }, FileContent.doc (JValue.obj root), true)
      else
        some ({ st with root_config := root }, fc, false)
  | _ => none

/-- `_migrate_to_instances`: wrap a legacy single-instance document. -/
def migrateToInstances (old : JValue) : Entries :=
  [("active_instances", JValue.list [JValue.str "instance_1"]),
   ("instances", JValue.obj [("instance_1", old)])]

/-- `ConfigManager.load`: read the backing file; seed and write defaults on a
missing file; fall back to in-memory defaults (without touching the file) on
a read/parse failure; migrate a legacy document lacking "instances"; seed the
requested instance when absent; merge the instance entry with the defaults.
Returns the new state together with the (possibly re-written) file; `none`
models the uncaught exceptions raised on non-mapping root documents or
non-mapping "instances" values (only JSONDecodeError and IOError are caught
by the source). -/
def loadCM (iid : String) (fc : FileContent) (ioOk : Bool) :
    Option (CMState × FileContent) :=
  match fc with
  | FileContent.corrupt =>
      some ({ instance_id := iid, root_config := DEFAULT_ROOT_CONFIG,
              config := DEFAULT_INSTANCE_CONFIG }, fc)
  | FileContent.absent =>
      let st : CMState :=
        { instance_id := iid, root_config := DEFAULT_ROOT_CONFIG,
          config := DEFAULT_INSTANCE_CONFIG }
      match saveCM st fc ioOk with
      | some (st1, fc1, _) => some (st1, fc1)
      | none => none
  | FileContent.doc v =>
      match v with
      | JValue.obj kvs =>
          let root0 := if hasKey kvs "instances" then kvs
                       else migrateToInstances (JValue.obj kvs)
          match lookupD root0 "instances" with
          | some (JValue.obj insts) =>
              let insts1 := if hasKey insts iid then insts
                            else setk insts iid (JValue.obj DEFAULT_INSTANCE_CONFIG)
              let root1 := setk root0 "instances" (JValue.obj insts1)
              match lookupD insts1 iid with
              | some inst =>
                  (mergeJ inst DEFAULT_INSTANCE_CONFIG).map fun cfg =>
                    ({ instance_id := iid, root_config := root1, config := cfg }, fc)
              | none => none
          | _ => none
      | _ => none

/-- The result of the two-argument `ConfigManager.get`: either a value (with
`none` standing for Python's None on a missing key) or the AttributeError
raised when the category holds a non-mapping value. -/
inductive GetResult where
  | ok : Option JValue → GetResult
  | attrError : GetResult
deriving Repr

/-- `ConfigManager.get(category)`: the stored section, or an empty dict. -/
def getSection (st : CMState) (category : String) : JValue :=
  (lookupD st.config category).getD (JValue.obj [])

/-- `ConfigManager.get(category, key)`: `config.get(category, {}).get(key)`.
When the category holds a non-mapping value, `.get(key)` on it raises
AttributeError, modelled by `GetResult.attrError`. -/
def getKey (st : CMState) (category key : String) : GetResult :=
  match lookupD st.config category with
  | none => GetResult.ok none
  | some (JValue.obj kvs) => GetResult.ok (lookupD kvs key)
  | some _ => GetResult.attrError

/-- `ConfigManager.set(category, key, value)`: seed an empty dict for a
missing category, then assign `config[category][key] = value`.  `none`
models the uncaught TypeError when the category holds a non-mapping value. -/
def setCM (st : CMState) (category key : String) (v : JValue) : Option CMState :=
  let cfg0 := if hasKey st.config category then st.config
              else setk st.config category (JValue.obj [])
  match lookupD cfg0 category with
  | some (JValue.obj kvs) =>
      some { st with config := setk cfg0 category (JValue.obj (setk kvs key v)) }
  | _ => none

/-- `ConfigManager.get_all_instances`: `list(root.get("instances", {}).keys())`;
`none` models the AttributeError on a non-mapping "instances" value. -/
def getAllInstances (st : CMState) : Option (List String) :=
  match lookupD st.root_config "instances" with
  | none => some []
  | some (JValue.obj insts) => some (keysD insts)
  | some _ => none

/-- `ConfigManager.get_active_instances`: `root.get("active_instances", [])`. -/
def getActiveInstances (st : CMState) : JValue :=
  (lookupD st.root_config "active_instances").getD (JValue.list [])

/-- Python `iid in act_list` for a list value whose members are compared to
the string `iid` (non-string members never compare equal). -/
def listHasStr (xs : List JValue) (iid : String) : Bool :=
  xs.any fun x => match x with
    | JValue.str t => t == iid
    | _ => false

/-- Python `act_list.remove(iid)`: drop the first element equal to `iid`. -/
def removeFirstStr : List JValue → String → List JValue
  | [], _ => []
  | x :: rest, iid =>
      match x with
      | JValue.str t => if t = iid then rest else JValue.str t :: removeFirstStr rest iid
      | y => y :: removeFirstStr rest iid

/-- `ConfigManager.add_instance`: no-op returning False when the id exists;
otherwise seed defaults, append to active_instances when absent, and save.
The source returns True regardless of whether the save write succeeded.
`none` models the uncaught exceptions on a root whose "instances" or
"active_instances" entries are missing or not of the expected type. -/
def addInstance (st : CMState) (iid : String) (fc : FileContent) (ioOk : Bool) :
    Option (CMState × FileContent × Bool) :=
  match lookupD st.root_config "instances" with
  | some (JValue.obj insts) =>
      if hasKey insts iid then some (st, fc, false)
      else
        let insts1 := setk insts iid (JValue.obj DEFAULT_INSTANCE_CONFIG)
        let root1 := setk st.root_config "instances" (JValue.obj insts1)
        match lookupD root1 "active_instances" with
        | some (JValue.list acts) =>
            let acts1 := if listHasStr acts iid then acts
                         else acts ++ [JValue.str iid]
            let root2 := setk root1 "active_instances" (JValue.list acts1)
            match saveCM { st with root_config := root2 } fc ioOk with
            | some (st2, fc2, _) => some (st2, fc2, true)
            | none => none
        | _ => none
  | _ => none

/-- `ConfigManager.remove_instance`: refuse when at most one instance
remains; otherwise delete the entry, drop the id from active_instances when
present, and save.  The source returns True regardless of the save result.
`none` models the uncaught exceptions on malformed root documents. -/
def removeInstance (st : CMState) (iid : String) (fc : FileContent) (ioOk : Bool) :
    Option (CMState × FileContent × Bool) :=
  match lookupD st.root_config "instances" with
  | some (JValue.obj insts) =>
      if insts.length ≤ 1 then some (st, fc, false)
      else if hasKey insts iid then
        let insts1 := eraseD insts iid
        let root1 := setk st.root_config "instances" (JValue.obj insts1)
        match lookupD root1 "active_instances" with
        | some (JValue.list acts) =>
            let acts1 := if listHasStr acts iid then removeFirstStr acts iid else acts
            let root2 := setk root1 "active_instances" (JValue.list acts1)
            match saveCM { st with root_config := root2 } fc ioOk with
            | some (st2, fc2, _) => some (st2, fc2, true)
            | none => none
        | _ => none
      else some (st, fc, false)
  | _ => none

/-- `ConfigManager.set_active_instances`: overwrite active_instances, save.
The save result is discarded by the source (the method returns None). -/
def setActiveInstances (st : CMState) (ids : List String) (fc : FileContent)
    (ioOk : Bool) : Option (CMState × FileContent) :=
  let root1 := setk st.root_config "active_instances"
      (JValue.list (ids.map JValue.str))
  match saveCM { st with root_config := root1 } fc ioOk with
  | some (st1, fc1, _) => some (st1, fc1)
  | none => none

/-- `ConfigManager.switch_instance`: fail (False) when the id is absent;
otherwise re-merge that instance's stored entry against the defaults and
replace the working copy.  No save happens here.  `none` models the uncaught
exceptions on a malformed root or a non-mapping instance entry. -/
def switchInstance (st : CMState) (iid : String) : Option (CMState × Bool) :=
  match lookupD st.root_config "instances" with
  | some (JValue.obj insts) =>
      match lookupD insts iid with
      | some inst =>
          (mergeJ inst DEFAULT_INSTANCE_CONFIG).map fun cfg =>
            ({ st with instance_id := iid, config := cfg }, true)
      | none => some (st, false)
  | _ => none

/-- The instance-data selection of `import_settings` for a mapping document
`kvs`: with an "instances" key, reject (`none`, an early `return False`) a
non-mapping or empty instances map, then take `instances.get(iid) or
next(iter(instances.values()))` — the entry for the current id when truthy,
else the first entry; without an "instances" key the document itself is the
instance data. -/
def chooseInstanceData (kvs : Entries) (iid : String) : Option JValue :=
  if hasKey kvs "instances" then
    match lookupD kvs "instances" with
    | some (JValue.obj insts) =>
        if insts.isEmpty then none
        else
          match lookupD insts iid with
          | some v => if truthy v then some v else (insts.head?.map Prod.snd)
          | none => insts.head?.map Prod.snd
    | _ => none
  else some (JValue.obj kvs)

/-- `ConfigManager.import_settings`: parse the file (IOError and
JSONDecodeError are caught and reported as False), check the document shape,
merge the chosen instance data with the defaults, replace the working copy,
sync it into the root document, and return the result of `save`.  A
TypeError on the root sync (non-mapping "instances") is caught by the
source's handler and reported as False — with the working copy already
replaced; a KeyError (missing "instances") is not caught (`none`). -/
def importSettings (st : CMState) (imported : FileContent) (fc : FileContent)
    (ioOk : Bool) : Option (CMState × FileContent × Bool) :=
  match imported with
  | FileContent.absent => some (st, fc, false)
  | FileContent.corrupt => some (st, fc, false)
  | FileContent.doc (JValue.obj kvs) =>
      match chooseInstanceData kvs st.instance_id with
      | none => some (st, fc, false)
      | some instanceData =>
          match instanceData with
          | JValue.obj idata =>
              match mergeWithDefaults idata DEFAULT_INSTANCE_CONFIG with
              | none => none
              | some cfg =>
                  let st1 := { st with config := cfg }
                  match lookupD st1.root_config "instances" with
                  | some (JValue.obj insts) =>
                      let root1 := setk st1.root_config "instances"
                          (JValue.obj (setk insts st1.instance_id (JValue.obj cfg)))
                      let st2 := { st1 with root_config := root1 }
                      match saveCM st2 fc ioOk with
                      | some (st3, fc3, ok) => some (st3, fc3, ok)
                      | none => none
                  | some _ => some (st1, fc, false)
                  | none => none
          | _ => some (st, fc, false)
  | FileContent.doc _ => some (st, fc, false)

/-- One theme from src/themes.py.  Every catalog entry has a name, a
description, and the three partial overlay sections. -/
structure Theme where
  name : String
  description : String
  colors : Entries
  fonts : Entries
  appearance : Entries
deriving Repr

/-- The THEMES catalog from src/themes.py, in source order. -/
def THEMES : List (String × Theme) :=
  [("default",
    { name := "Studio Glass",
      description := "Warm white with cool weather accents",
      colors :=
        [("text", JValue.str "#f5f2ea"),
         ("shadow", JValue.str "#121212"),
         ("status", JValue.str "#8a8a8a"),
         ("time_color", JValue.str "#fefcf7"),
         ("date_color", JValue.str "#d8d2c6"),
         ("weather_color", JValue.str "#c7d3e8")],
      fonts := [("family", JValue.str "Bahnschrift")],
      appearance := [("opacity", JValue.num 1)] }),
   ("noir_mint",
    { name := "Noir Mint",
      description := "Deep blacks with mint highlights",
      colors :=
        [("text", JValue.str "#dffcf2"),
         ("shadow", JValue.str "#081715"),
         ("status", JValue.str "#5da79a"),
         ("time_color", JValue.str "#b8fff0"),
         ("date_color", JValue.str "#8ad6c5"),
         ("weather_color", JValue.str "#e7fff8")],
      fonts := [("family", JValue.str "Cascadia Code")],
      appearance := [("opacity", JValue.num (96/100))] }),
   ("cobalt_dawn",
    { name := "Cobalt Dawn",
      description := "Cool blues with crisp contrast",
      colors :=
        [("text", JValue.str "#d9e8ff"),
         ("shadow", JValue.str "#0a1020"),
         ("status", JValue.str "#5e7bb3"),
         ("time_color", JValue.str "#ffffff"),
         ("date_color", JValue.str "#b6c9f0"),
         ("weather_color", JValue.str "#8ab4ff")],
      fonts := [("family", JValue.str "Yu Gothic UI Semibold")],
      appearance := [("opacity", JValue.num (95/100))] }),
   ("sunset_signal",
    { name := "Sunset Signal",
      description := "Warm amber with strong readability",
      colors :=
        [("text", JValue.str "#ffd2a6"),
         ("shadow", JValue.str "#2a0f05"),
         ("status", JValue.str "#c18a5a"),
         ("time_color", JValue.str "#ffe0bf"),
         ("date_color", JValue.str "#f5b77f"),
         ("weather_color", JValue.str "#ff9b5f")],
      fonts := [("family", JValue.str "Trebuchet MS")],
      appearance := [("opacity", JValue.num (95/100))] }),
   ("paper_ink",
    { name := "Paper Ink",
      description := "Soft paper with crisp ink",
      colors :=
        [("text", JValue.str "#1f1b16"),
         ("shadow", JValue.str "#e3ddcf"),
         ("status", JValue.str "#7b6e61"),
         ("time_color", JValue.str "#14110d"),
         ("date_color", JValue.str "#2d2620"),
         ("weather_color", JValue.str "#3b322a")],
      fonts := [("family", JValue.str "Georgia")],
      appearance := [("opacity", JValue.num (92/100))] }),
   ("glacier",
    { name := "Glacier",
      description := "Cold light with steel shadow",
      colors :=
        [("text", JValue.str "#eaf7ff"),
         ("shadow", JValue.str "#0b1a22"),
         ("status", JValue.str "#5c91a5"),
         ("time_color", JValue.str "#f8fdff"),
         ("date_color", JValue.str "#cfe9f5"),
         ("weather_color", JValue.str "#9ad4e6")],
      fonts := [("family", JValue.str "Calibri Light")],
      appearance := [("opacity", JValue.num (93/100))] })]

/-- `THEMES.get(theme_id)`. -/
def lookupTheme (theme_id : String) : Option Theme :=
  (THEMES.find? fun p => p.1 == theme_id).map Prod.snd

/-- The id-keyed loop of `on_theme_selected` that finds the first theme
whose display name matches the selection. -/
def findThemeByName (display : String) : Option (String × Theme) :=
  THEMES.find? fun p => p.2.name == display

/-- The tk variables read and written by the settings-window callbacks.
Entry/combobox variables are strings, size and spacing variables are
integers, opacity and scale are floats (modelled as rationals), check
buttons are booleans.  Combobox selections hold display names, translated
through the corresponding map before being stored. -/
structure UIVars where
  font_family : String
  time_size : Int
  date_size : Int
  weather_size : Int
  text_color : String
  shadow_color : String
  status_color : String
  lock_colors : Bool
  time_color : String
  date_color : String
  weather_color : String
  opacity : Rat
  scale : Rat
  shadow_offset_x : Int
  shadow_offset_y : Int
  status_x : Int
  status_y : Int
  time_x : Int
  time_y : Int
  date_x : Int
  date_y : Int
  weather_x : Int
  weather_y : Int
  use_24h : Bool
  show_seconds : Bool
  snap_to_edges : Bool
  click_through_locked : Bool
  date_format_sel : String
  zip : String
  country : String
  weather_interval_min : Int
  weather_format_sel : String
  show_attribution : Bool
  show_emoji : Bool
  show_forecast : Bool
  hourly_chime : Bool
  weather_refresh_chime : Bool
  launch_at_boot : Bool
  theme_sel : String

/-- `self.date_format_map` from the date_formats table. -/
def dateFormatMap : String → Option String
  | "Full (Saturday, January 11)" => some "%A, %B %d"
  | "Short (Sat, Jan 11)" => some "%a, %b %d"
  | "Numeric (01/11/2025)" => some "%m/%d/%Y"
  | "ISO (2025-01-11)" => some "%Y-%m-%d"
  | "European (11 January 2025)" => some "%d %B %Y"
  | "Minimal (Jan 11)" => some "%b %d"
  | _ => none

/-- `self.format_map` from the weather_formats table. -/
def weatherFormatMap : String → Option String
  | "Standard (Condition, Temp, Wind)" => some "standard"
  | "Simple (Condition, Temp)" => some "simple"
  | "Detailed (+ Humidity)" => some "detailed"
  | "Minimal (Temp only)" => some "minimal"
  | _ => none

/-- Run a sequence of `config.set` calls from one callback: a raising `set`
aborts the rest of the callback (the exception propagates out of the tk
handler), leaving the state as it was before the failed call. -/
def setSeq (st : CMState) : List (String × String × JValue) → CMState × Bool
  | [] => (st, true)
  | (c, k, v) :: rest =>
      match setCM st c k v with
      | some st1 => setSeq st1 rest
      | none => (st, false)

/-- The `config.set` calls of `apply_instant_preview`, in source order; the
date-format store is guarded by membership in the date-format map. -/
def previewSets (ui : UIVars) : List (String × String × JValue) :=
  [("fonts", "family", JValue.str ui.font_family),
   ("fonts", "time_size", JValue.num ui.time_size),
   ("fonts", "date_size", JValue.num ui.date_size),
   ("fonts", "weather_size", JValue.num ui.weather_size),
   ("colors", "text", JValue.str ui.text_color),
   ("colors", "shadow", JValue.str ui.shadow_color),
   ("colors", "status", JValue.str ui.status_color),
   ("colors", "lock_colors", JValue.bool ui.lock_colors),
   ("colors", "time_color", JValue.str ui.time_color),
   ("colors", "date_color", JValue.str ui.date_color),
   ("colors", "weather_color", JValue.str ui.weather_color),
   ("appearance", "opacity", JValue.num ui.opacity),
   ("appearance", "scale", JValue.num ui.scale),
   ("appearance", "shadow_offset_x", JValue.num ui.shadow_offset_x),
   ("appearance", "shadow_offset_y", JValue.num ui.shadow_offset_y),
   ("spacing", "status_x", JValue.num ui.status_x),
   ("spacing", "status_y", JValue.num ui.status_y),
   ("spacing", "time_x", JValue.num ui.time_x),
   ("spacing", "time_y", JValue.num ui.time_y),
   ("spacing", "date_x", JValue.num ui.date_x),
   ("spacing", "date_y", JValue.num ui.date_y),
   ("spacing", "weather_x", JValue.num ui.weather_x),
   ("spacing", "weather_y", JValue.num ui.weather_y),
   ("display", "use_24h_format", JValue.bool ui.use_24h),
   ("display", "show_seconds", JValue.bool ui.show_seconds),
   ("display", "snap_to_edges", JValue.bool ui.snap_to_edges),
   ("display", "click_through_locked", JValue.bool ui.click_through_locked)]
  ++ (match dateFormatMap ui.date_format_sel with
      | some f => [("display", "date_format", JValue.str f)]
      | none => [])

/-- `apply_instant_preview`: write the visual fields into the working copy
and notify the renderer (`parent_widget.apply_settings`, a read-only
collaborator with no effect on the configuration state). -/
def applyInstantPreview (ui : UIVars) (st : CMState) : CMState × Bool :=
  setSeq st (previewSets ui)

/-- The manual-apply `config.set` calls of `on_apply`, in source order. -/
def applySets (ui : UIVars) : List (String × String × JValue) :=
  [("location", "zip_code", JValue.str ui.zip),
   ("location", "country", JValue.str ui.country),
   ("updates", "weather_interval", JValue.num ((ui.weather_interval_min * 60000 : Int) : Rat))]
  ++ (match weatherFormatMap ui.weather_format_sel with
      | some f => [("weather", "display_format", JValue.str f)]
      | none => [])
  ++ [("weather", "show_attribution", JValue.bool ui.show_attribution),
      ("weather", "show_emoji", JValue.bool ui.show_emoji),
      ("weather", "show_forecast", JValue.bool ui.show_forecast),
      ("display", "hourly_chime", JValue.bool ui.hourly_chime),
      ("display", "weather_refresh_chime", JValue.bool ui.weather_refresh_chime),
      ("display", "click_through_locked", JValue.bool ui.click_through_locked),
      ("display", "launch_at_boot", JValue.bool ui.launch_at_boot)]

/-- `on_apply`: commit the manual-apply fields into the working copy, invoke
the OS-startup collaborator, re-run `apply_instant_preview`, then the
status-message and weather collaborators.  No save happens here. -/
def onApply (ui : UIVars) (st : CMState) : CMState × Bool :=
  match setSeq st (applySets ui) with
  | (st1, true) => applyInstantPreview ui st1
  | (st1, false) => (st1, false)

/-- `apply_theme_to_config` from src/themes.py: False when the id is
unknown, otherwise set every entry of the theme's colors, fonts and
appearance sections (each section is present on every catalog entry, so the
source's presence guards always pass) and tag `appearance.theme`. -/
def applyThemeToConfig (st : CMState) (theme_id : String) :
    CMState × Option Bool :=
  match lookupTheme theme_id with
  | none => (st, some false)
  | some t =>
      let sets :=
        (t.colors.map fun kv => ("colors", kv.1, kv.2))
        ++ (t.fonts.map fun kv => ("fonts", kv.1, kv.2))
        ++ (t.appearance.map fun kv => ("appearance", kv.1, kv.2))
        ++ [("appearance", "theme", JValue.str theme_id)]
      match setSeq st sets with
      | (st1, true) => (st1, some true)
      | (st1, false) => (st1, none)

/-- `d.get(key, default)` for a string-valued entry, as used when
`on_theme_selected` copies theme values back into the tk variables. -/
def getStrD (d : Entries) (k dflt : String) : String :=
  match lookupD d k with
  | some (JValue.str s) => s
  | _ => dflt

/-- `theme["appearance"].get("opacity", 1.0)`. -/
def getNumD (d : Entries) (k : String) (dflt : Rat) : Rat :=
  match lookupD d k with
  | some (JValue.num q) => q
  | _ => dflt

/-- The tk-variable updates `on_theme_selected` performs from the chosen
theme before re-running the instant preview. -/
def uiFromTheme (ui : UIVars) (t : Theme) : UIVars :=
  { ui with
    text_color := getStrD t.colors "text" "#ffffff",
    shadow_color := getStrD t.colors "shadow" "#000000",
    status_color := getStrD t.colors "status" "#808080",
    time_color := getStrD t.colors "time_color" "#ffffff",
    date_color := getStrD t.colors "date_color" "#ffffff",
    weather_color := getStrD t.colors "weather_color" "#ffffff",
    font_family := getStrD t.fonts "family" "Segoe UI",
    opacity := getNumD t.appearance "opacity" 1 }

/-- `on_theme_selected`: ignore the "Custom" entry; find the theme by its
display name; apply it to the config, update the tk variables from it, and
re-run the instant preview.  A raising `set` aborts the callback. -/
def onThemeSelected (ui : UIVars) (st : CMState) : CMState × Bool :=
  if ui.theme_sel = "Custom" then (st, true)
  else
    match findThemeByName ui.theme_sel with
    | none => (st, true)
    | some (tid, t) =>
        match applyThemeToConfig st tid with
        | (st1, some _) => applyInstantPreview (uiFromTheme ui t) st1
        | (st1, none) => (st1, false)

/-- An edit-session state of the settings window: the wrapped ConfigManager
plus the Settings Snapshot (`self.original_config`, a deep copy of the
working copy taken at session open or at the last instance switch). -/
structure Session where
  cm : CMState
  original_config : Entries

/-- One mutation of an open edit session, carrying the tk-variable state the
callback reads: an instant-preview callback, an Apply button press, or a
theme selection. -/
inductive EditOp where
  | preview : UIVars → EditOp
  | applyBtn : UIVars → EditOp
  | themeSel : UIVars → EditOp

/-- Run one edit-session mutation.  All three callbacks mutate only the
working copy (`cm.config`); none of them touches the snapshot, the root
document, or the backing file. -/
def stepEdit (s : Session) : EditOp → Session
  | EditOp.preview ui => { s with cm := (applyInstantPreview ui s.cm).1 }
  | EditOp.applyBtn ui => { s with cm := (onApply ui s.cm).1 }
  | EditOp.themeSel ui => { s with cm := (onThemeSelected ui s.cm).1 }

/-- Run a sequence of edit-session mutations. -/
def runEdits (s : Session) (ops : List EditOp) : Session :=
  ops.foldl stepEdit s

/-- `on_cancel`: restore the working copy from the Settings Snapshot and
notify the renderer; the root document and the file are untouched. -/
def onCancel (s : Session) : Session :=
  { s with cm := { s.cm with config := s.original_config } }

/-- `on_instance_changed`: when the selection differs from the current
instance id, run `on_apply` on the current instance first, then
`switch_instance`; on a successful switch, `reload_all_settings` re-reads
every control and re-takes the Settings Snapshot from the new working copy.
No step of this handler writes the backing file, so it is threaded through
unchanged.  `none` models an uncaught exception in the handler. -/
def onInstanceChanged (ui : UIVars) (newInstance : String) (s : Session)
    (fc : FileContent) : Option (Session × FileContent) :=
  if newInstance = s.cm.instance_id then some (s, fc)
  else
    match onApply ui s.cm with
    | (cm1, true) =>
        match switchInstance cm1 newInstance with
        | some (cm2, true) =>
            some ({ cm := cm2, original_config := cm2.config }, fc)
        | some (cm2, false) => some ({ s with cm := cm2 }, fc)
        | none => none
    | (_, false) => none

/-- Whether every value of a dict is a mapping (true of the Default
Schema's sections). -/
def allValuesObj (d : Entries) : Bool :=
  d.all fun kv => isObj kv.2

/-- The "instances" map of the in-memory root document, when it is a
mapping. -/
def instancesEntries (st : CMState) : Option Entries :=
  match lookupD st.root_config "instances" with
  | some (JValue.obj l) => some l
  | _ => none

/-- Path lookup into the decoded on-disk document. -/
def diskPath (fc : FileContent) (p : List String) : Option JValue :=
  match fc with
  | FileContent.doc v => getPath v p
  | _ => none

/-- A freshly seeded ConfigManager on the default root document. -/
def defaultCM : CMState :=
  { instance_id := "instance_1", root_config := DEFAULT_ROOT_CONFIG,
    config := DEFAULT_INSTANCE_CONFIG }

/-- A backing file holding the default root document. -/
def defaultFile : FileContent :=
  FileContent.doc (JValue.obj DEFAULT_ROOT_CONFIG)

/-- A partial document giving only one entry of weather.format_strings. -/
def c2P : Entries :=
  [("weather", JValue.obj
     [("format_strings", JValue.obj [("standard", JValue.str "custom")])])]

/-- A two-instance root document with default instance configs. -/
def c3Root : Entries :=
  [("active_instances", JValue.list [JValue.str "instance_1", JValue.str "instance_2"]),
   ("instances", JValue.obj
      [("instance_1", JValue.obj DEFAULT_INSTANCE_CONFIG),
       ("instance_2", JValue.obj DEFAULT_INSTANCE_CONFIG)])]

/-- The backing file for the two-instance root document. -/
def c3File : FileContent := FileContent.doc (JValue.obj c3Root)

/-- The manager state produced by loading the two-instance file as
instance_1 (the working copy is not aliased into the root document: no
save has happened in this manager's lifetime). -/
def c3CM : CMState :=
  { instance_id := "instance_1", root_config := c3Root,
    config := DEFAULT_INSTANCE_CONFIG }

/-- The edit session opened on that freshly loaded manager. -/
def c3Session : Session :=
  { cm := c3CM, original_config := DEFAULT_INSTANCE_CONFIG }

/-- Control values matching the defaults everywhere. -/
def uiDefault : UIVars :=
  { font_family := "Bahnschrift", time_size := 48, date_size := 16,
    weather_size := 16, text_color := "#f5f2ea", shadow_color := "#121212",
    status_color := "#8a8a8a", lock_colors := true, time_color := "#fefcf7",
    date_color := "#d8d2c6", weather_color := "#c7d3e8", opacity := 1,
    scale := 1, shadow_offset_x := 2, shadow_offset_y := 2, status_x := 0,
    status_y := 0, time_x := 0, time_y := 18, date_x := 0, date_y := 75,
    weather_x := 0, weather_y := 100, use_24h := false, show_seconds := false,
    snap_to_edges := true, click_through_locked := false,
    date_format_sel := "Full (Saturday, January 11)", zip := "80701",
    country := "US", weather_interval_min := 30,
    weather_format_sel := "Standard (Condition, Temp, Wind)",
    show_attribution := true, show_emoji := true, show_forecast := false,
    hourly_chime := false, weather_refresh_chime := false,
    launch_at_boot := false, theme_sel := "Custom" }

/-- Controls with a dirty manual-apply-tier zip field. -/
def c3UI : UIVars := { uiDefault with zip := "99999" }

/-- The default manager after one instant-preview write to opacity. -/
def c4AfterPreview : Option CMState :=
  setCM defaultCM "appearance" "opacity" (JValue.num (1/2))

/-- add_instance run while that preview edit is pending and unsaved. -/
def c4AfterAdd : Option (CMState × FileContent × Bool) :=
  c4AfterPreview.bind fun st => addInstance st "instance_2" defaultFile true

/-- A settings-export-shaped document with a single location override. -/
def c6Kvs : Entries :=
  [("location", JValue.obj [("zip_code", JValue.str "11111")])]

/-- The import of that document attempted while the file write fails. -/
def c6After : Option (CMState × FileContent × Bool) :=
  importSettings defaultCM (FileContent.doc (JValue.obj c6Kvs)) defaultFile false

/-- The merge of the imported location override with the defaults. -/
def c6Merged : Entries :=
  (mergeWithDefaults c6Kvs DEFAULT_INSTANCE_CONFIG).getD []

/-- A legacy single-instance backing file: a flat document whose only key
is a root-level zip_code. -/
def c7File : FileContent :=
  FileContent.doc (JValue.obj [("zip_code", JValue.str "10001")])

/-- The root document after the legacy file is migrated. -/
def c7Root : Entries :=
  [("active_instances", JValue.list [JValue.str "instance_1"]),
   ("instances", JValue.obj
      [("instance_1", JValue.obj [("zip_code", JValue.str "10001")])])]

/-- The working copy after the migrated legacy document is merged: the
Default Schema plus the legacy flat key appended at top level. -/
def c7Config : Entries :=
  DEFAULT_INSTANCE_CONFIG ++ [("zip_code", JValue.str "10001")]

/-- The manager state after loading the legacy file. -/
def c7State : CMState :=
  { instance_id := "instance_1", root_config := c7Root, config := c7Config }

/-- An imported root document whose instances map holds only instance_9. -/
def c8FirstVal : Entries :=
  [("location", JValue.obj [("zip_code", JValue.str "22222")])]

/-- The instances map of the imported root document. -/
def c8Insts : Entries :=
  [("instance_9", JValue.obj c8FirstVal)]

/-- The imported root document itself. -/
def c8Kvs : Entries :=
  [("instances", JValue.obj c8Insts)]

/-- The instances map of the session's own root document. -/
def c8RootInsts : Entries :=
  [("instance_1", JValue.obj DEFAULT_INSTANCE_CONFIG)]

/-- The merge of instance_9's partial data with the defaults. -/
def c8Merged : Entries :=
  (mergeWithDefaults c8FirstVal DEFAULT_INSTANCE_CONFIG).getD []

/-- Lookup after a dict assignment: the assigned key reads back the new
value, every other key is unaffected. -/
theorem lookupD_setk (d : Entries) (k : String) (v : JValue) (q : String) :
    lookupD (setk d k v) q = if k = q then some v else lookupD d q := by
  induction d with
  | nil =>
      by_cases h : k = q <;> simp [setk, lookupD, h]
  | cons hd tl ih =>
      obtain ⟨a, b⟩ := hd
      by_cases h1 : a = k
      · subst h1
        by_cases h2 : a = q <;> simp [setk, lookupD, h2]
      · by_cases h2 : a = q
        · subst h2
          have h3 : ¬ k = a := fun h => h1 h.symm
          simp [setk, lookupD, h1, h3]
        · simp [setk, lookupD, h1, h2, ih]

/-- Membership after a dict assignment. -/
theorem hasKey_setk (d : Entries) (k : String) (v : JValue) (q : String) :
    hasKey (setk d k v) q = ((k = q : Bool) || hasKey d q) := by
  by_cases h : k = q <;> simp [hasKey, lookupD_setk, h]

/-- Re-assigning the same key overwrites the previous assignment. -/
theorem setk_setk (d : Entries) (k : String) (v w : JValue) :
    setk (setk d k v) k w = setk d k w := by
  induction d with
  | nil => simp [setk]
  | cons hd tl ih =>
      obtain ⟨a, b⟩ := hd
      by_cases h : a = k <;> simp [setk, h, ih]

/-- A dict assignment never shrinks the entry list. -/
theorem length_le_length_setk (d : Entries) (k : String) (v : JValue) :
    d.length ≤ (setk d k v).length := by
  induction d with
  | nil => simp [setk]
  | cons hd tl ih =>
      obtain ⟨a, b⟩ := hd
      by_cases h : a = k <;> simp [setk, h]
      exact ih

/-- A dict deletion removes at most one entry. -/
theorem length_le_length_eraseD_succ (d : Entries) (k : String) :
    d.length ≤ (eraseD d k).length + 1 := by
  induction d with
  | nil => simp [eraseD]
  | cons hd tl ih =>
      obtain ⟨a, b⟩ := hd
      by_cases h : a = k <;> simp [eraseD, h]
      exact ih

/-- Every successful merge iteration is a single dict assignment. -/
theorem mergeStep_eq_setk (m : Entries) (c : String) (v : JValue) (m1 : Entries)
    (h : mergeStep m c v = some m1) : ∃ w, m1 = setk m c w := by
  cases v with
  | obj lv =>
      cases hm : lookupD m c with
      | none =>
          rw [mergeStep, hm] at h
          exact ⟨JValue.obj lv, (Option.some.inj h).symm⟩
      | some w =>
          cases w with
          | obj mv =>
              rw [mergeStep, hm] at h
              exact ⟨JValue.obj (updateD mv lv), (Option.some.inj h).symm⟩
          | null => rw [mergeStep, hm] at h; cases h
          | str s => rw [mergeStep, hm] at h; cases h
          | bool b => rw [mergeStep, hm] at h; cases h
          | num q => rw [mergeStep, hm] at h; cases h
          | list xs => rw [mergeStep, hm] at h; cases h
  | null => exact ⟨JValue.null, (Option.some.inj h).symm⟩
  | str s => exact ⟨JValue.str s, (Option.some.inj h).symm⟩
  | bool b => exact ⟨JValue.bool b, (Option.some.inj h).symm⟩
  | num q => exact ⟨JValue.num q, (Option.some.inj h).symm⟩
  | list xs => exact ⟨JValue.list xs, (Option.some.inj h).symm⟩

/-- The merge engine never loses a key of the defaults document. -/
theorem merge_hasKey (loaded : Entries) : ∀ (defaults M : Entries),
    mergeWithDefaults loaded defaults = some M →
    ∀ k, hasKey defaults k = true → hasKey M k = true := by
  induction loaded with
  | nil =>
      intro defaults M h k hk
      rw [mergeWithDefaults] at h
      exact (Option.some.inj h) ▸ hk
  | cons hd rest ih =>
      intro defaults M h k hk
      obtain ⟨c, v⟩ := hd
      rw [mergeWithDefaults] at h
      cases hs : mergeStep defaults c v with
      | none => rw [hs] at h; cases h
      | some m1 =>
          rw [hs] at h
          obtain ⟨w, rfl⟩ := mergeStep_eq_setk defaults c v m1 hs
          refine ih _ _ h k ?_
          rw [hasKey_setk]
          simp [hk]

/-- In an all-mapping dict every lookup yields a mapping. -/
theorem lookup_allValuesObj (d : Entries) (hd : allValuesObj d = true)
    (c : String) (w : JValue) (h : lookupD d c = some w) : isObj w = true := by
  induction d with
  | nil => cases h
  | cons hdv tl ih =>
      obtain ⟨a, b⟩ := hdv
      rw [allValuesObj, List.all_cons] at hd
      rw [lookupD] at h
      by_cases hc : a = c
      · rw [if_pos hc] at h
        exact (Option.some.inj h) ▸ (Bool.and_elim_left hd)
      · rw [if_neg hc] at h
        exact ih (Bool.and_elim_right hd) h

/-- The merge engine is total over documents with distinct keys whenever
every relevant value of the defaults is a mapping: the only failure mode,
updating a non-mapping in place, cannot be reached. -/
theorem merge_isSome (loaded : Entries) : ∀ (defaults : Entries),
    (keysD loaded).Nodup →
    (∀ cv ∈ loaded, isObj cv.2 = true →
      ∀ w, lookupD defaults cv.1 = some w → isObj w = true) →
    (mergeWithDefaults loaded defaults).isSome = true := by
  induction loaded with
  | nil => intro defaults _ _; rw [mergeWithDefaults]; rfl
  | cons hd rest ih =>
      intro defaults hnd hobj
      obtain ⟨c, v⟩ := hd
      have hnd1 : (keysD rest).Nodup := (List.nodup_cons.mp hnd).2
      have hcnot : c ∉ keysD rest := (List.nodup_cons.mp hnd).1
      rw [mergeWithDefaults]
      have hstep : ∃ m1, mergeStep defaults c v = some m1 := by
        cases v with
        | obj lv =>
            cases hm : lookupD defaults c with
            | none => exact ⟨_, by rw [mergeStep, hm]⟩
            | some w =>
                have hw : isObj w = true :=
                  hobj (c, JValue.obj lv) (List.mem_cons_self _ _) rfl w hm
                cases w with
                | obj mv => exact ⟨_, by rw [mergeStep, hm]⟩
                | null => cases hw
                | str s => cases hw
                | bool b => cases hw
                | num q => cases hw
                | list xs => cases hw
        | null => exact ⟨_, rfl⟩
        | str s => exact ⟨_, rfl⟩
        | bool b => exact ⟨_, rfl⟩
        | num q => exact ⟨_, rfl⟩
        | list xs => exact ⟨_, rfl⟩
      obtain ⟨m1, hm1⟩ := hstep
      rw [hm1]
      obtain ⟨w, rfl⟩ := mergeStep_eq_setk defaults c v m1 hm1
      refine ih _ hnd1 ?_
      intro cv hmem hv u hu
      have hne : c ≠ cv.1 := by
        intro h
        exact hcnot (h ▸ List.mem_map_of_mem Prod.fst hmem)
      rw [lookupD_setk, if_neg hne] at hu
      exact hobj cv (List.mem_cons_of_mem _ hmem) hv u hu

/-- Explicit form of a save on a root document whose "instances" entry is a
mapping: the working copy is synced into the root under the session's id,
and the file is rewritten exactly when the write succeeds. -/
theorem saveCM_eq (st : CMState) (fc : FileContent) (ioOk : Bool) (insts : Entries)
    (h : lookupD st.root_config "instances" = some (JValue.obj insts)) :
    saveCM st fc ioOk =
      some ({ st with root_config := (setk st.root_config "instances"
                (JValue.obj (setk insts st.instance_id (JValue.obj st.config)))) },
            (if ioOk then
              FileContent.doc (JValue.obj (setk st.root_config "instances"
                (JValue.obj (setk insts st.instance_id (JValue.obj st.config)))))
             else fc),
            ioOk) := by
  unfold saveCM
  rw [h]
  cases ioOk <;> rfl

/-- Inversion for `instancesEntries`. -/
theorem instancesEntries_some (st : CMState) (l : Entries)
    (h : instancesEntries st = some l) :
    lookupD st.root_config "instances" = some (JValue.obj l) := by
  unfold instancesEntries at h
  split at h
  next heq => rw [heq]; rw [Option.some.inj h]
  next => cases h

/-- A dict assignment never produces an empty dict. -/
theorem setk_ne_nil (d : Entries) (k : String) (v : JValue) : setk d k v ≠ [] := by
  cases d with
  | nil => simp [setk]
  | cons hd tl =>
      obtain ⟨a, b⟩ := hd
      by_cases h : a = k <;> simp [setk, h]

/-- Reading the instances map of a root document that was just assigned
one. -/
theorem instancesEntries_setk (root X cfg : Entries) (iid : String) :
    instancesEntries ⟨iid, setk root "instances" (JValue.obj X), cfg⟩ = some X := by
  unfold instancesEntries
  rw [lookupD_setk, if_pos rfl]

/-- Inversion of a non-raising save: the root document held a mapping under
"instances", the new state syncs the working copy into it, the returned
flag is the write result, and the file is rewritten exactly on success. -/
theorem saveCM_some (st st1 : CMState) (fc fc1 : FileContent) (ioOk r : Bool)
    (h : saveCM st fc ioOk = some (st1, fc1, r)) :
    ∃ insts, lookupD st.root_config "instances" = some (JValue.obj insts)
      ∧ st1 = { st with root_config := (setk st.root_config "instances"
          (JValue.obj (setk insts st.instance_id (JValue.obj st.config)))) }
      ∧ fc1 = (if ioOk then FileContent.doc (JValue.obj (setk st.root_config "instances"
          (JValue.obj (setk insts st.instance_id (JValue.obj st.config))))) else fc)
      ∧ r = ioOk := by
  unfold saveCM at h
  split at h
  next insts heq =>
    refine ⟨insts, heq, ?_⟩
    cases ioOk with
    | true =>
        rw [if_pos rfl] at h
        rw [if_pos rfl]
        simp only [Option.some.injEq, Prod.mk.injEq] at h
        exact ⟨h.1.symm, h.2.1.symm, h.2.2.symm⟩
    | false =>
        rw [if_neg (by simp)] at h
        rw [if_neg (by simp)]
        simp only [Option.some.injEq, Prod.mk.injEq] at h
        exact ⟨h.1.symm, h.2.1.symm, h.2.2.symm⟩
  next => cases h

/-- Claim C1: for every edit session opened with snapshot S0 (the deep copy
of the working copy at session open), any sequence of instant-preview
mutations, theme applications and Apply operations, followed by Cancel,
leaves the session's working copy structurally equal to S0: the edit
callbacks mutate only the working copy and never the snapshot, and Cancel
restores the snapshot. -/
theorem C1_cancel_restores (iid : String) (root cfg0 : Entries) (ops : List EditOp) :
    (onCancel (runEdits
      { cm := { instance_id := iid, root_config := root, config := cfg0 },
        original_config := cfg0 } ops)).cm.config = cfg0 := by
  have hsnap : ∀ (l : List EditOp) (s : Session),
      (runEdits s l).original_config = s.original_config := by
    intro l
    induction l with
    | nil => intro s; rfl
    | cons op rest ih =>
        intro s
        have h1 : runEdits s (op :: rest) = runEdits (stepEdit s op) rest := rfl
        rw [h1, ih (stepEdit s op)]
        cases op <;> rfl
  exact hsnap _ _

/-- Claim C9: loading a backing file that exists but fails to read or parse
falls back to the default root document and default working copy in memory
and returns the file contents unchanged — the file is not rewritten. -/
theorem C9_corrupt_load_keeps_file (iid : String) (ioOk : Bool) :
    loadCM iid FileContent.corrupt ioOk =
      some ({ instance_id := iid, root_config := DEFAULT_ROOT_CONFIG,
              config := DEFAULT_INSTANCE_CONFIG }, FileContent.corrupt) := rfl

/-- Claim C2, counterexample: merging a partial document that gives only
weather.format_strings.standard drops the other format_strings entries the
Default Schema defines (the section-level update replaces the nested
mapping wholesale), refuting that the merge output contains every key of
the Default Schema including nested-mapping entries. -/
theorem C2_counterexample :
    (mergeWithDefaults c2P DEFAULT_INSTANCE_CONFIG).isSome = true
    ∧ ((mergeWithDefaults c2P DEFAULT_INSTANCE_CONFIG).bind
        fun m => getPath (JValue.obj m) ["weather", "format_strings", "simple"]) = none
    ∧ getPath (JValue.obj DEFAULT_INSTANCE_CONFIG)
        ["weather", "format_strings", "simple"] = some (JValue.str "%C+%t") :=
  ⟨rfl, rfl, rfl⟩

/-- Claim C2, amended: merging the empty document with the Default Schema
returns the Default Schema itself, and for every partial mapping document P
(with the distinct keys every parsed document has) the merge succeeds and
its output contains every top-level section key the Default Schema defines;
entries of nested mappings inside a section are not preserved when the
section is given partially. -/
theorem C2_merge_totality (P : Entries) (hnd : (keysD P).Nodup) :
    mergeWithDefaults [] DEFAULT_INSTANCE_CONFIG = some DEFAULT_INSTANCE_CONFIG
    ∧ ∃ M, mergeWithDefaults P DEFAULT_INSTANCE_CONFIG = some M
        ∧ ∀ k, hasKey DEFAULT_INSTANCE_CONFIG k = true → hasKey M k = true := by
  refine ⟨rfl, ?_⟩
  have hobj : ∀ cv ∈ P, isObj cv.2 = true →
      ∀ w, lookupD DEFAULT_INSTANCE_CONFIG cv.1 = some w → isObj w = true :=
    fun cv _ _ w hw => lookup_allValuesObj DEFAULT_INSTANCE_CONFIG rfl cv.1 w hw
  have htot := merge_isSome P DEFAULT_INSTANCE_CONFIG hnd hobj
  obtain ⟨M, hM⟩ := Option.isSome_iff_exists.mp htot
  exact ⟨M, hM, fun k hk => merge_hasKey P DEFAULT_INSTANCE_CONFIG M hM k hk⟩

/-- Witness for C2: the totality and key-containment statement applied to
the concrete partial document of the counterexample. -/
theorem C2_merge_totality_witness :
    (keysD c2P).Nodup
    ∧ (mergeWithDefaults [] DEFAULT_INSTANCE_CONFIG = some DEFAULT_INSTANCE_CONFIG
       ∧ ∃ M, mergeWithDefaults c2P DEFAULT_INSTANCE_CONFIG = some M
           ∧ ∀ k, hasKey DEFAULT_INSTANCE_CONFIG k = true → hasKey M k = true) :=
  ⟨by decide, C2_merge_totality c2P (by decide)⟩

/-- Claim C7, counterexample: loading a legacy flat document with a
root-level zip_code of "10001" yields a session whose
get('location','zip_code') is the schema default "80701", not "10001" —
the migration wraps the flat document without relocating its keys into
sections, so the merge keeps the legacy key at top level. -/
theorem C7_counterexample :
    loadCM "instance_1" c7File true = some (c7State, c7File)
    ∧ ¬ ((loadCM "instance_1" c7File true).map (fun r => getKey r.1 "location" "zip_code")
          = some (GetResult.ok (some (JValue.str "10001")))) := by
  refine ⟨rfl, ?_⟩
  intro h
  have h0 : (loadCM "instance_1" c7File true).map (fun r => getKey r.1 "location" "zip_code")
      = some (GetResult.ok (some (JValue.str "80701"))) := rfl
  rw [h0] at h
  have h1 := GetResult.ok.inj (Option.some.inj h)
  have h2 := JValue.str.inj (Option.some.inj h1)
  exact absurd h2 (by decide)

/-- Claim C7, amended: after loading the legacy flat document,
list_instances() is exactly ["instance_1"], get('location','zip_code')
returns the schema default "80701", and the legacy value survives as the
top-level key zip_code of the working copy rather than inside the location
section. -/
theorem C7_legacy_migration :
    loadCM "instance_1" c7File true = some (c7State, c7File)
    ∧ getAllInstances c7State = some ["instance_1"]
    ∧ getKey c7State "location" "zip_code" = GetResult.ok (some (JValue.str "80701"))
    ∧ lookupD c7State.config "zip_code" = some (JValue.str "10001") :=
  ⟨rfl, rfl, rfl, rfl⟩

/-- Claim C5: with exactly one instance in the root document,
remove_instance returns failure and leaves the whole state (in particular
the instances mapping) unchanged; and the invariant that the instances
mapping is never empty is preserved by add_instance, remove_instance,
set_active_instances and switch_instance. -/
theorem C5_last_instance_invariant :
    (∀ (st : CMState) (iid : String) (fc : FileContent) (ioOk : Bool) (l : Entries),
        instancesEntries st = some l → l.length = 1 →
        removeInstance st iid fc ioOk = some (st, fc, false))
    ∧ (∀ (st : CMState) (iid : String) (fc : FileContent) (ioOk : Bool)
         (st1 : CMState) (fc1 : FileContent) (r : Bool),
        addInstance st iid fc ioOk = some (st1, fc1, r) →
        (∀ l, instancesEntries st = some l → l ≠ []) →
        (∀ l, instancesEntries st1 = some l → l ≠ []))
    ∧ (∀ (st : CMState) (iid : String) (fc : FileContent) (ioOk : Bool)
         (st1 : CMState) (fc1 : FileContent) (r : Bool),
        removeInstance st iid fc ioOk = some (st1, fc1, r) →
        (∀ l, instancesEntries st = some l → l ≠ []) →
        (∀ l, instancesEntries st1 = some l → l ≠ []))
    ∧ (∀ (st : CMState) (ids : List String) (fc : FileContent) (ioOk : Bool)
         (st1 : CMState) (fc1 : FileContent),
        setActiveInstances st ids fc ioOk = some (st1, fc1) →
        (∀ l, instancesEntries st = some l → l ≠ []) →
        (∀ l, instancesEntries st1 = some l → l ≠ []))
    ∧ (∀ (st : CMState) (iid : String) (st1 : CMState) (r : Bool),
        switchInstance st iid = some (st1, r) →
        instancesEntries st1 = instancesEntries st) := by
  refine ⟨?_, ?_, ?_, ?_, ?_⟩
  · -- last instance cannot be removed
    intro st iid fc ioOk l hl hlen1
    have h := instancesEntries_some st l hl
    have hle : l.length ≤ 1 := le_of_eq hlen1
    unfold removeInstance
    rw [h]
    simp only [hle, if_true]
  · -- add_instance preserves nonemptiness
    intro st iid fc ioOk st1 fc1 r hadd hne l1 hl1
    unfold addInstance at hadd
    split at hadd
    next insts hinsts =>
      split at hadd
      next =>
        simp only [Option.some.injEq, Prod.mk.injEq] at hadd
        obtain ⟨h1, h2, h3⟩ := hadd
        subst h1
        exact hne l1 hl1
      next =>
        unfold_let at hadd
        split at hadd
        next acts hacts =>
          split at hadd
          next st2 fc2 snd hsave =>
            simp only [Option.some.injEq, Prod.mk.injEq] at hadd
            obtain ⟨h1, h2, h3⟩ := hadd
            subst h1
            obtain ⟨insts0, hlook, hst2, hfcx, hrx⟩ := saveCM_some _ _ _ _ _ _ hsave
            rw [hst2] at hl1
            rw [instancesEntries_setk] at hl1
            rw [← Option.some.inj hl1]
            exact setk_ne_nil _ _ _
          next => cases hadd
        next => cases hadd
    next => cases hadd
  · -- remove_instance preserves nonemptiness
    intro st iid fc ioOk st1 fc1 r hrem hne l1 hl1
    unfold removeInstance at hrem
    split at hrem
    next insts hinsts =>
      split at hrem
      next =>
        simp only [Option.some.injEq, Prod.mk.injEq] at hrem
        obtain ⟨h1, h2, h3⟩ := hrem
        subst h1
        exact hne l1 hl1
      next =>
        split at hrem
        next =>
          unfold_let at hrem
          split at hrem
          next acts hacts =>
            split at hrem
            next st2 fc2 snd hsave =>
              simp only [Option.some.injEq, Prod.mk.injEq] at hrem
              obtain ⟨h1, h2, h3⟩ := hrem
              subst h1
              obtain ⟨insts0, hlook, hst2, hfcx, hrx⟩ := saveCM_some _ _ _ _ _ _ hsave
              rw [hst2] at hl1
              rw [instancesEntries_setk] at hl1
              rw [← Option.some.inj hl1]
              exact setk_ne_nil _ _ _
            next => cases hrem
          next => cases hrem
        next =>
          simp only [Option.some.injEq, Prod.mk.injEq] at hrem
          obtain ⟨h1, h2, h3⟩ := hrem
          subst h1
          exact hne l1 hl1
    next => cases hrem
  · -- set_active_instances preserves nonemptiness
    intro st ids fc ioOk st1 fc1 hset hne l1 hl1
    unfold setActiveInstances at hset
    unfold_let at hset
    split at hset
    next st2 fc2 snd hsave =>
      simp only [Option.some.injEq, Prod.mk.injEq] at hset
      obtain ⟨h1, h2⟩ := hset
      subst h1
      obtain ⟨insts0, hlook, hst2, hfcx, hrx⟩ := saveCM_some _ _ _ _ _ _ hsave
      rw [hst2] at hl1
      rw [instancesEntries_setk] at hl1
      rw [← Option.some.inj hl1]
      exact setk_ne_nil _ _ _
    next => cases hset
  · -- switch_instance leaves the instances mapping unchanged
    intro st iid st1 r hsw
    unfold switchInstance at hsw
    split at hsw
    next insts hinsts =>
      split at hsw
      next inst hi =>
        cases hm : mergeJ inst DEFAULT_INSTANCE_CONFIG with
        | none => rw [hm] at hsw; cases hsw
        | some cfg =>
            rw [hm] at hsw
            simp only [Option.map_some', Option.some.injEq, Prod.mk.injEq] at hsw
            obtain ⟨h1, h2⟩ := hsw
            subst h1
            rfl
      next =>
        simp only [Option.some.injEq, Prod.mk.injEq] at hsw
        obtain ⟨h1, h2⟩ := hsw
        subst h1
        rfl
    next => cases hsw

/-- Witness for C5: the last-instance guard applied to the default root
document, which holds exactly one instance. -/
theorem C5_last_instance_invariant_witness :
    instancesEntries defaultCM = some [("instance_1", JValue.obj DEFAULT_INSTANCE_CONFIG)]
    ∧ [("instance_1", JValue.obj DEFAULT_INSTANCE_CONFIG)].length = 1
    ∧ removeInstance defaultCM "instance_1" defaultFile true
        = some (defaultCM, defaultFile, false) :=
  ⟨rfl, rfl, C5_last_instance_invariant.1 defaultCM "instance_1" defaultFile true
      [("instance_1", JValue.obj DEFAULT_INSTANCE_CONFIG)] rfl rfl⟩

/-- Claim C10, counterexample: on the session reachable by loading the
legacy flat document, the two-argument get raises AttributeError for the
top-level category zip_code (whose stored value is a string, not a
mapping), refuting that neither form of get ever raises for any string
arguments. -/
theorem C10_counterexample :
    loadCM "instance_1" c7File true = some (c7State, c7File)
    ∧ getKey c7State "zip_code" "x" = GetResult.attrError :=
  ⟨rfl, rfl⟩

/-- Claim C10, amended: the one-argument get is total — it returns the
stored section value, or an empty mapping when the category is absent; the
two-argument get returns the stored value (None when the key is absent) for
absent or mapping-valued categories, and raises AttributeError exactly when
the working copy holds a non-mapping value under the category. -/
theorem C10_get_totality :
    (∀ (st : CMState) (c k : String), lookupD st.config c = none →
        getSection st c = JValue.obj [] ∧ getKey st c k = GetResult.ok none)
    ∧ (∀ (st : CMState) (c k : String) (kvs : Entries),
        lookupD st.config c = some (JValue.obj kvs) →
        getSection st c = JValue.obj kvs ∧ getKey st c k = GetResult.ok (lookupD kvs k))
    ∧ (∀ (st : CMState) (c k : String) (v : JValue),
        lookupD st.config c = some v → isObj v = false →
        getSection st c = v ∧ getKey st c k = GetResult.attrError) := by
  refine ⟨?_, ?_, ?_⟩
  · intro st c k h
    constructor
    · unfold getSection; rw [h]; rfl
    · unfold getKey; rw [h]
  · intro st c k kvs h
    constructor
    · unfold getSection; rw [h]; rfl
    · unfold getKey; rw [h]
  · intro st c k v h hv
    constructor
    · unfold getSection; rw [h]; rfl
    · unfold getKey
      rw [h]
      cases v with
      | obj kvs => cases hv
      | null => rfl
      | str s => rfl
      | bool b => rfl
      | num q => rfl
      | list xs => rfl

/-- Witness for C10: the error characterization applied to the reachable
legacy-load session at the string-valued top-level category. -/
theorem C10_get_totality_witness :
    lookupD c7State.config "zip_code" = some (JValue.str "10001")
    ∧ isObj (JValue.str "10001") = false
    ∧ (getSection c7State "zip_code" = JValue.str "10001"
       ∧ getKey c7State "zip_code" "x" = GetResult.attrError) :=
  ⟨rfl, rfl, C10_get_totality.2.2 c7State "zip_code" "x" (JValue.str "10001") rfl rfl⟩

/-- Claim C3, code behavior at the failing input: on a freshly loaded
two-instance manager with a dirty manual-apply zip field ("99999"), the
instance-switch handler runs Apply first (committing the dirty value into
the in-memory working copy) and the switch succeeds, yet the backing file
is returned unchanged — the persisted entry of the instance being left
still holds the old zip "80701", because neither on_apply nor
switch_instance writes the file. -/
theorem C3_switch_does_not_persist :
    loadCM "instance_1" c3File true = some (c3CM, c3File)
    ∧ (onApply c3UI c3CM).2 = true
    ∧ getKey (onApply c3UI c3CM).1 "location" "zip_code"
        = GetResult.ok (some (JValue.str "99999"))
    ∧ (onInstanceChanged c3UI "instance_2" c3Session c3File).map (fun r => r.2)
        = some c3File
    ∧ diskPath c3File ["instances", "instance_1", "location", "zip_code"]
        = some (JValue.str "80701") :=
  ⟨rfl, rfl, rfl, rfl, rfl⟩

/-- Claim C4, counterexample: with an instant-preview opacity edit pending
and unsaved, add_instance reports success and the on-disk entry for the
session's own instance now carries the preview edit (opacity one half,
where the file previously held the default 1) — save flushes the working
copy of the current instance along with the new one. -/
theorem C4_counterexample :
    (c4AfterAdd.map fun r => r.2.2) = some true
    ∧ (c4AfterAdd.map fun r =>
        diskPath r.2.1 ["instances", "instance_1", "appearance", "opacity"])
        = some (some (JValue.num (1/2)))
    ∧ diskPath defaultFile ["instances", "instance_1", "appearance", "opacity"]
        = some (JValue.num 1) :=
  ⟨rfl, rfl, rfl⟩

/-- Claim C4, amended: an instant-preview set touches only the working
copy — never the root document (and it takes no file handle at all); but
any operation that calls save, such as add_instance, rewrites the whole
root document and thereby persists the session instance's working copy,
including whatever preview edits are pending, under the session's id. -/
theorem C4_preview_persistence :
    (∀ (st : CMState) (c k : String) (v : JValue) (st1 : CMState),
        setCM st c k v = some st1 →
        st1.root_config = st.root_config ∧ st1.instance_id = st.instance_id)
    ∧ (∀ (st : CMState) (fc : FileContent) (insts : Entries),
        lookupD st.root_config "instances" = some (JValue.obj insts) →
        saveCM st fc true =
          some ({ st with root_config := (setk st.root_config "instances"
              (JValue.obj (setk insts st.instance_id (JValue.obj st.config)))) },
            FileContent.doc (JValue.obj (setk st.root_config "instances"
              (JValue.obj (setk insts st.instance_id (JValue.obj st.config))))),
            true)
        ∧ jget ((lookupD (setk st.root_config "instances"
              (JValue.obj (setk insts st.instance_id (JValue.obj st.config))))
              "instances").getD JValue.null) st.instance_id
            = some (JValue.obj st.config))
    ∧ (∀ (st : CMState) (iid : String) (fc : FileContent) (st1 : CMState)
         (fc1 : FileContent) (r : Bool) (insts : Entries),
        lookupD st.root_config "instances" = some (JValue.obj insts) →
        hasKey insts iid = false →
        addInstance st iid fc true = some (st1, fc1, r) →
        fc1 = FileContent.doc (JValue.obj st1.root_config)
        ∧ jget ((lookupD st1.root_config "instances").getD JValue.null) st.instance_id
            = some (JValue.obj st.config)) := by
  refine ⟨?_, ?_, ?_⟩
  · -- set never touches the root document
    intro st c k v st1 h
    unfold setCM at h
    unfold_let at h
    split at h
    next kvs heq =>
      have h1 := Option.some.inj h
      rw [← h1]
      exact ⟨rfl, rfl⟩
    next => cases h
  · -- a succeeding save writes the root with the working copy synced in
    intro st fc insts h
    constructor
    · rw [saveCM_eq st fc true insts h]
      rw [if_pos rfl]
    · rw [lookupD_setk, if_pos rfl]
      show lookupD (setk insts st.instance_id (JValue.obj st.config)) st.instance_id
          = some (JValue.obj st.config)
      rw [lookupD_setk, if_pos rfl]
  · -- add_instance persists the session instance's pending working copy
    intro st iid fc st1 fc1 r insts hinst hfresh hadd
    unfold addInstance at hadd
    simp only [hinst, hfresh, Bool.false_eq_true, if_false] at hadd
    split at hadd
    next acts hacts =>
      split at hadd
      next st2 fc2 snd hsave =>
        simp only [Option.some.injEq, Prod.mk.injEq] at hadd
        obtain ⟨h1, h2, h3⟩ := hadd
        subst h1
        subst h2
        obtain ⟨insts0, hlook, hst2, hfc2, hr⟩ := saveCM_some _ _ _ _ _ _ hsave
        rw [if_pos rfl] at hfc2
        subst hfc2
        subst hst2
        constructor
        · rfl
        · rw [lookupD_setk, if_pos rfl]
          show lookupD (setk insts0 _ _) st.instance_id = some (JValue.obj st.config)
          rw [lookupD_setk, if_pos rfl]
      next => cases hadd
    next => cases hadd

/-- Witness for C4: the persistence characterization applied to the default
manager adding a fresh instance_2. -/
theorem C4_preview_persistence_witness :
    lookupD defaultCM.root_config "instances"
      = some (JValue.obj [("instance_1", JValue.obj DEFAULT_INSTANCE_CONFIG)])
    ∧ hasKey [("instance_1", JValue.obj DEFAULT_INSTANCE_CONFIG)] "instance_2" = false
    ∧ (∃ st1 fc1 r, addInstance defaultCM "instance_2" defaultFile true = some (st1, fc1, r)
        ∧ fc1 = FileContent.doc (JValue.obj st1.root_config)
        ∧ jget ((lookupD st1.root_config "instances").getD JValue.null) "instance_1"
            = some (JValue.obj DEFAULT_INSTANCE_CONFIG)) := by
  refine ⟨rfl, rfl, ?_⟩
  obtain ⟨hfc, hj⟩ := C4_preview_persistence.2.2 defaultCM "instance_2" defaultFile
    _ _ _ [("instance_1", JValue.obj DEFAULT_INSTANCE_CONFIG)] rfl rfl rfl
  exact ⟨_, _, _, rfl, hfc, hj⟩

/-- Claim C6, counterexample: importing a well-formed settings file while
the persist write fails returns failure with the backing file unchanged —
but the working copy has already been replaced by the merged import (zip
"11111" instead of the previous "80701"), refuting that a failing import
always leaves the working copy unchanged. -/
theorem C6_counterexample :
    (c6After.map fun r => r.2.2) = some false
    ∧ (c6After.map fun r => r.2.1) = some defaultFile
    ∧ (c6After.map fun r => getKey r.1 "location" "zip_code")
        = some (GetResult.ok (some (JValue.str "11111")))
    ∧ getKey defaultCM "location" "zip_code" = GetResult.ok (some (JValue.str "80701")) :=
  ⟨rfl, rfl, rfl, rfl⟩

/-- Claim C6, amended: import is atomic for parse and shape failures —
an unreadable or unparseable file, a non-mapping document, a non-mapping or
empty instances map, or a non-mapping chosen entry each report failure with
the session state untouched; but on an I/O failure during the immediate
persist, import reports failure with the backing file unchanged while the
working copy has already been replaced by the merged import. -/
theorem C6_import_atomicity :
    (∀ (st : CMState) (fc : FileContent) (ioOk : Bool),
        importSettings st FileContent.absent fc ioOk = some (st, fc, false))
    ∧ (∀ (st : CMState) (fc : FileContent) (ioOk : Bool),
        importSettings st FileContent.corrupt fc ioOk = some (st, fc, false))
    ∧ (∀ (st : CMState) (fc : FileContent) (ioOk : Bool) (v : JValue),
        isObj v = false →
        importSettings st (FileContent.doc v) fc ioOk = some (st, fc, false))
    ∧ (∀ (st : CMState) (fc : FileContent) (ioOk : Bool) (kvs : Entries),
        chooseInstanceData kvs st.instance_id = none →
        importSettings st (FileContent.doc (JValue.obj kvs)) fc ioOk = some (st, fc, false))
    ∧ (∀ (st : CMState) (fc : FileContent) (ioOk : Bool) (kvs : Entries) (v : JValue),
        chooseInstanceData kvs st.instance_id = some v → isObj v = false →
        importSettings st (FileContent.doc (JValue.obj kvs)) fc ioOk = some (st, fc, false))
    ∧ (∀ (st : CMState) (fc : FileContent) (kvs idata cfg insts : Entries),
        chooseInstanceData kvs st.instance_id = some (JValue.obj idata) →
        mergeWithDefaults idata DEFAULT_INSTANCE_CONFIG = some cfg →
        lookupD st.root_config "instances" = some (JValue.obj insts) →
        ∃ st1, importSettings st (FileContent.doc (JValue.obj kvs)) fc false
            = some (st1, fc, false)
          ∧ st1.config = cfg) := by
  refine ⟨?_, ?_, ?_, ?_, ?_, ?_⟩
  · intro st fc ioOk; rfl
  · intro st fc ioOk; rfl
  · intro st fc ioOk v hv
    cases v with
    | obj kvs => cases hv
    | null => rfl
    | str s => rfl
    | bool b => rfl
    | num q => rfl
    | list xs => rfl
  · intro st fc ioOk kvs hch
    simp only [importSettings, hch]
  · intro st fc ioOk kvs v hch hv
    simp only [importSettings, hch]
    cases v with
    | obj kvs2 => cases hv
    | null => rfl
    | str s => rfl
    | bool b => rfl
    | num q => rfl
    | list xs => rfl
  · intro st fc kvs idata cfg insts hch hmerge hinst
    simp only [importSettings, hch, hmerge, hinst]
    rw [saveCM_eq _ fc false (setk insts st.instance_id (JValue.obj cfg)) (by
      show lookupD (setk st.root_config "instances"
        (JValue.obj (setk insts st.instance_id (JValue.obj cfg)))) "instances" = _
      rw [lookupD_setk, if_pos rfl])]
    rw [if_neg (by simp)]
    exact ⟨_, rfl, rfl⟩

/-- Witness for C6: the persist-failure branch applied to the concrete
importing of a location override into the default manager. -/
theorem C6_import_atomicity_witness :
    chooseInstanceData c6Kvs "instance_1" = some (JValue.obj c6Kvs)
    ∧ mergeWithDefaults c6Kvs DEFAULT_INSTANCE_CONFIG = some c6Merged
    ∧ lookupD defaultCM.root_config "instances"
        = some (JValue.obj [("instance_1", JValue.obj DEFAULT_INSTANCE_CONFIG)])
    ∧ (∃ st1, importSettings defaultCM (FileContent.doc (JValue.obj c6Kvs)) defaultFile false
          = some (st1, defaultFile, false)
        ∧ st1.config = c6Merged) :=
  ⟨rfl, rfl, rfl, C6_import_atomicity.2.2.2.2.2 defaultCM defaultFile c6Kvs c6Kvs
    c6Merged [("instance_1", JValue.obj DEFAULT_INSTANCE_CONFIG)] rfl rfl rfl⟩

/-- Claim C8: importing a root-shaped document whose instances map lacks an
entry for the current session's id takes the first available entry, merges
it with the Default Schema, replaces the working copy, persists the merged
result under the current session's instance id (not under the imported
entry's id), and reports success. -/
theorem C8_import_fallback (st : CMState) (fc : FileContent)
    (kvs insts rootInsts : Entries) (firstId : String) (firstVal M : Entries)
    (hinst : lookupD kvs "instances" = some (JValue.obj insts))
    (hhead : insts.head? = some (firstId, JValue.obj firstVal))
    (hmiss : lookupD insts st.instance_id = none)
    (hroot : lookupD st.root_config "instances" = some (JValue.obj rootInsts))
    (hmerge : mergeWithDefaults firstVal DEFAULT_INSTANCE_CONFIG = some M) :
    importSettings st (FileContent.doc (JValue.obj kvs)) fc true =
      some ({ st with
              root_config := (setk st.root_config "instances"
                (JValue.obj (setk rootInsts st.instance_id (JValue.obj M)))),
              config := M },
            FileContent.doc (JValue.obj (setk st.root_config "instances"
              (JValue.obj (setk rootInsts st.instance_id (JValue.obj M))))),
            true)
    ∧ (firstId ≠ st.instance_id → hasKey rootInsts firstId = false →
        hasKey (setk rootInsts st.instance_id (JValue.obj M)) firstId = false) := by
  have hch : chooseInstanceData kvs st.instance_id = some (JValue.obj firstVal) := by
    have hne : insts.isEmpty = false := by
      cases insts with
      | nil => cases hhead
      | cons hd tl => rfl
    simp only [chooseInstanceData, hasKey, hinst, Option.isSome_some, if_true, hne,
               Bool.false_eq_true, if_false, hmiss, hhead, Option.map_some']
  constructor
  · simp only [importSettings, hch, hmerge, hroot]
    rw [saveCM_eq _ fc true (setk rootInsts st.instance_id (JValue.obj M)) (by
      show lookupD (setk st.root_config "instances"
        (JValue.obj (setk rootInsts st.instance_id (JValue.obj M)))) "instances" = _
      rw [lookupD_setk, if_pos rfl])]
    rw [if_pos rfl]
    show some ({ st with
        root_config := (setk (setk st.root_config "instances"
          (JValue.obj (setk rootInsts st.instance_id (JValue.obj M)))) "instances"
          (JValue.obj (setk (setk rootInsts st.instance_id (JValue.obj M))
            st.instance_id (JValue.obj M)))), config := M },
      FileContent.doc (JValue.obj (setk (setk st.root_config "instances"
          (JValue.obj (setk rootInsts st.instance_id (JValue.obj M)))) "instances"
          (JValue.obj (setk (setk rootInsts st.instance_id (JValue.obj M))
            st.instance_id (JValue.obj M))))),
      true) = _
    rw [setk_setk, setk_setk]
  · intro hne hfresh
    rw [hasKey_setk]
    have : (st.instance_id = firstId : Bool) = false := by
      simp only [decide_eq_false_iff_not]
      exact fun h => hne h.symm
    rw [this, hfresh]
    rfl

/-- Witness for C8: the fallback applied to the spec's concrete scenario —
an imported file holding only instance_9 while the session edits
instance_1. -/
theorem C8_import_fallback_witness :
    lookupD c8Kvs "instances" = some (JValue.obj c8Insts)
    ∧ c8Insts.head? = some ("instance_9", JValue.obj c8FirstVal)
    ∧ lookupD c8Insts "instance_1" = none
    ∧ lookupD defaultCM.root_config "instances" = some (JValue.obj c8RootInsts)
    ∧ mergeWithDefaults c8FirstVal DEFAULT_INSTANCE_CONFIG = some c8Merged
    ∧ (importSettings defaultCM (FileContent.doc (JValue.obj c8Kvs)) defaultFile true =
        some ({ defaultCM with
                root_config := (setk defaultCM.root_config "instances"
                  (JValue.obj (setk c8RootInsts "instance_1" (JValue.obj c8Merged)))),
                config := c8Merged },
              FileContent.doc (JValue.obj (setk defaultCM.root_config "instances"
                (JValue.obj (setk c8RootInsts "instance_1" (JValue.obj c8Merged))))),
              true)
       ∧ ("instance_9" ≠ "instance_1" → hasKey c8RootInsts "instance_9" = false →
          hasKey (setk c8RootInsts "instance_1" (JValue.obj c8Merged)) "instance_9" = false)) :=
  ⟨rfl, rfl, rfl, rfl, rfl, C8_import_fallback defaultCM defaultFile c8Kvs c8Insts
    c8RootInsts "instance_9" c8FirstVal c8Merged rfl rfl rfl rfl rfl⟩

end TDW
